import Mathlib

/-! Shallow embedding of the TLS 1.2 session core found in
`libfprint/libfprint/drivers/synatlsmoc/tls_session.c` of the
synaTudorMiS repository, together with theorems about its record
layer, handshake transcript, key schedule and buffering behaviour.

Bytes are modelled as `Nat` (kept below 256 by the writer primitives,
mirroring `FpiByteWriter`), buffers as `List Nat`, and the fallible C
paths (`GError` returns as well as `g_assert` / `g_assert_not_reached`
aborts) as `Except TlsError`.  The OpenSSL provider (hashes, TLS1-PRF,
AES-256-GCM, P-256 key generation / ECDH, ECDSA signing, RNG) is an
external collaborator of this repository; it is modelled as a `Crypto`
record of abstract functions carrying the provider's documented output
length contracts, so that the theorems speak about the session core's
plumbing and not about any particular cipher arithmetic. -/

/-- `fpi_byte_writer_put_uint16_be`: two big-endian bytes of a 16-bit value. -/
def u16be (n : Nat) : List Nat := [n / 256 % 256, n % 256]

/-- `fpi_byte_writer_put_uint16_le`: two little-endian bytes of a 16-bit value. -/
def u16le (n : Nat) : List Nat := [n % 256, n / 256 % 256]

/-- `fpi_byte_writer_put_uint24_be`: three big-endian bytes of a 24-bit value. -/
def u24be (n : Nat) : List Nat := [n / 65536 % 256, n / 256 % 256, n % 256]

/-- `fpi_byte_writer_put_uint64_be`: eight big-endian bytes of a 64-bit value. -/
def u64be (n : Nat) : List Nat :=
  [n / 72057594037927936 % 256, n / 281474976710656 % 256,
   n / 1099511627776 % 256, n / 4294967296 % 256,
   n / 16777216 % 256, n / 65536 % 256, n / 256 % 256, n % 256]

/-- The `HandshakePhase` enum from `tls_session.c`. -/
inductive HandshakePhase where
  | HANDSHAKE_BEGIN
  | CLIENT_HELLO_SENT
  | SUITE_HANDSHAKE
  | SERVER_DONE
  | FINISHED
deriving DecidableEq

/-- Failure modes of the C code.  `assertFail` stands for every
`g_assert` / `g_assert_not_reached` abort; `unsupportedSuite` for the
`FP_DEVICE_ERROR_PROTO "Cipher suite not supported"` error returns.
`alertError d` models failing by raising the TLS alert with description
`d`, the failure mode described by the spec's error taxonomy; in the C
source it appears only inside TODO comments
(`raise data.TlsAlertException(...)`) and is never actually raised. -/
inductive TlsError where
  | assertFail
  | unsupportedSuite
  | alertError (description : Nat)
deriving DecidableEq

/-- The `Handshake` struct: message type and body.  The C struct's
`length` field always equals the body length at every construction
site, so it is represented by `body.length`; the debug-only `repr`
string is omitted. -/
structure Handshake where
  msg_type : Nat
  body : List Nat
deriving DecidableEq

/-- The `TlsRecord` struct: content type and fragment.  The C struct's
`length` field always equals the fragment length at every construction
site, so it is represented by `fragment.length`; the `version` field is
never read on the paths modelled here and the debug-only `repr` string
is omitted. -/
structure TlsRecord where
  type : Nat
  fragment : List Nat
deriving DecidableEq

/-- The `_TlsSession` struct.  The paired `*_len` fields of the C
struct (`encr_key_len`, ..., always set alongside their buffers) are
represented by the list lengths; `pairing_data` is threaded as an
explicit argument. -/
structure TlsSession where
  send_closed : Bool
  recv_closed : Bool
  handshake_phase : HandshakePhase
  handshake_buffer : List Nat
  server_cs : Nat
  client_cs : Nat
  pending_cs : Nat
  master_secret : List Nat
  client_random : List Nat
  server_random : List Nat
  encr_seq_num : Nat
  decr_seq_num : Nat
  encr_key : List Nat
  decr_key : List Nat
  encr_iv : List Nat
  decr_iv : List Nat
  version : Nat
  session_id_size : Nat
  session_id : List Nat
  suites_size : Nat
  suites : List Nat
  send_buffer : List Nat
  content_buffer : List Nat
  content_buffer_type : Nat
  application_data : List Nat
  hash_algo : String
  cert_request : Nat
deriving DecidableEq

/-- The parts of `SensorPairingData` the session core reads.
`certificate_size` is the `CERTIFICATE_SIZE` constant.  Modelled from
the spec: the constant's definition lives in a driver header outside
the session core ("Certificate size: fixed device-specific constant;
implementer receives from pairing module"), so it is carried here as a
device-specific value.  The long-term keys of the pairing data are
only ever handed to the crypto provider and are folded into `Crypto`. -/
structure SensorPairingData where
  client_cert_raw : List Nat
  certificate_size : Nat
deriving DecidableEq

/-- The crypto provider (OpenSSL in the C code), an external
collaborator.  Functions are abstract; the proof fields are the
provider's documented output-length contracts: `RAND_bytes` fills
exactly the requested count, `EVP_KDF_derive` for TLS1-PRF produces
exactly `outlen` bytes, AES-256-GCM ciphertext has the plaintext's
length and a 16-byte tag, and GCM decryption returns ciphertext-length
plaintext.  `prf` takes secret, label, seed, output length and digest
name, matching `tls_prf` in the C code (where the label is passed as
the first seed chunk of the OpenSSL TLS1-PRF).  `ephPub` and
`premaster` are the ephemeral P-256 public key and the ECDH shared
secret of one handshake; `ecdsaSign` signs (SHA-256 digest-and-sign)
with the pairing key. -/
structure Crypto where
  rand : Nat → List Nat
  sha256 : List Nat → List Nat
  prf : List Nat → String → List Nat → Nat → String → List Nat
  gcmEnc : List Nat → List Nat → List Nat → List Nat → List Nat × List Nat
  gcmDec : List Nat → List Nat → List Nat → List Nat → List Nat → List Nat
  ephPub : List Nat
  premaster : List Nat
  ecdsaSign : List Nat → List Nat
  rand_len : ∀ n, (rand n).length = n
  prf_len : ∀ sec lab seed n algo, (prf sec lab seed n algo).length = n
  gcmEnc_ct_len : ∀ k iv aad pt, (gcmEnc k iv aad pt).1.length = pt.length
  gcmEnc_tag_len : ∀ k iv aad pt, (gcmEnc k iv aad pt).2.length = 16
  gcmDec_len : ∀ k iv aad ct tag, (gcmDec k iv aad ct tag).length = ct.length

/-- `tls_session_encrypt`: build one outbound record.  The header is
type (u8), version (u16, written with `fpi_byte_writer_put_uint16_le` —
the little-endian quirk), then per the active write cipher either
plaintext length and plaintext verbatim (null cipher) or
`8 + |ciphertext| + 16`, the 8 random explicit-nonce bytes, the
ciphertext and the 16-byte tag, bumping `encr_seq_num` (a `guint64`,
hence the mod). -/
def tls_session_encrypt (c : Crypto) (s : TlsSession) (type : Nat) (ptext : List Nat) :
    Except TlsError (TlsSession × List Nat) :=
  let header := [type % 256] ++ u16le s.version
  if s.client_cs = 0 then
    .ok (s, header ++ u16be ptext.length ++ ptext)
  else if s.client_cs = 0xC02E then
    let nonce := c.rand 8
    let gcm_iv := s.encr_iv.take 4 ++ nonce
    let additional :=
      u64be s.encr_seq_num ++ [type % 256] ++ u16be s.version ++ u16be ptext.length
    let enc := c.gcmEnc s.encr_key gcm_iv additional ptext
    .ok ({s with encr_seq_num := (s.encr_seq_num + 1) % 18446744073709551616},
         header ++ u16be (8 + enc.1.length + 16) ++ nonce ++ enc.1 ++ enc.2)
  else
    .error .unsupportedSuite

/-- `tls_session_decrypt`: under the null cipher the plaintext is the
ciphertext verbatim; under AES-256-GCM the fragment splits as
nonce (8) / ciphertext / tag (16) (a shorter fragment fails the
`g_assert(read_ok)`), and `decr_seq_num` is bumped. -/
def tls_session_decrypt (c : Crypto) (s : TlsSession) (type version : Nat)
    (ctext : List Nat) : Except TlsError (TlsSession × List Nat) :=
  if s.server_cs = 0 then
    .ok (s, ctext)
  else if s.server_cs = 0xC02E then
    if ctext.length < 24 then .error .assertFail
    else
      let nonce := ctext.take 8
      let cdata := (ctext.drop 8).take (ctext.length - 24)
      let tag := ctext.drop (ctext.length - 16)
      let gcm_iv := s.decr_iv.take 4 ++ nonce
      let additional :=
        u64be s.decr_seq_num ++ [type % 256] ++ u16be version ++ u16be (ctext.length - 24)
      let ptext := c.gcmDec s.decr_key gcm_iv additional cdata tag
      .ok ({s with decr_seq_num := (s.decr_seq_num + 1) % 18446744073709551616}, ptext)
  else
    .error .unsupportedSuite

/-- `tls_session_flush_content_buffer`: when a record type is pending,
encrypt the coalesced content buffer as one record, append the result
to the send buffer and clear the pending type (the C code extracts the
plaintext and re-initialises `content_buffer` before encrypting). -/
def tls_session_flush_content_buffer (c : Crypto) (s : TlsSession) :
    Except TlsError TlsSession :=
  if s.content_buffer_type ≠ 0 then
    match tls_session_encrypt c {s with content_buffer := []}
        s.content_buffer_type s.content_buffer with
    | .error e => .error e
    | .ok (s1, ctext) =>
      .ok {s1 with send_buffer := s1.send_buffer ++ ctext, content_buffer_type := 0}
  else .ok s

/-- `tls_session_flush_send_buffer`: flush the content buffer through
the cipher, then detach and return the send buffer. -/
def tls_session_flush_send_buffer (c : Crypto) (s : TlsSession) :
    Except TlsError (TlsSession × List Nat) :=
  match tls_session_flush_content_buffer c s with
  | .error e => .error e
  | .ok s1 => .ok ({s1 with send_buffer := []}, s1.send_buffer)

/-- `tls_session_send`: assert the send side open; flush first when a
different record type is pending; then append the fragment to the
content buffer and record its type. -/
def tls_session_send (c : Crypto) (s : TlsSession) (record : TlsRecord) :
    Except TlsError TlsSession :=
  if s.send_closed then .error .assertFail
  else
    match (if s.content_buffer_type ≠ 0 ∧ s.content_buffer_type ≠ record.type
           then tls_session_flush_content_buffer c s else .ok s) with
    | .error e => .error e
    | .ok s1 =>
      .ok {s1 with content_buffer := s1.content_buffer ++ record.fragment,
                   content_buffer_type := record.type}

/-- `tls_session_send_alert`: send a two-byte alert record (type 21);
afterwards a warning-level alert (`SSL3_AL_WARNING` = 1) marks the send
side closed. -/
def tls_session_send_alert (c : Crypto) (s : TlsSession) (level description : Nat) :
    Except TlsError TlsSession :=
  match tls_session_send c s ⟨21, [level % 256, description % 256]⟩ with
  | .error e => .error e
  | .ok s1 => .ok (if level = 1 then {s1 with send_closed := true} else s1)

/-- `tls_session_close`: idempotent; otherwise send a warning
close_notify (description 0) and mark the send side closed. -/
def tls_session_close (c : Crypto) (s : TlsSession) : Except TlsError TlsSession :=
  if s.send_closed then .ok s
  else
    match tls_session_send_alert c s 1 0 with
    | .error e => .error e
    | .ok s1 => .ok {s1 with send_closed := true}

/-- `tls_session_has_data`. -/
def tls_session_has_data (s : TlsSession) : Bool :=
  s.send_buffer.length > 0 || s.content_buffer.length > 0

/-- The wire bytes of one handshake message: type (u8), length
(u24 BE), body. -/
def handshakeMsgBytes (msg : Handshake) : List Nat :=
  [msg.msg_type % 256] ++ u24be msg.body.length ++ msg.body

/-- `tls_session_send_handshake_msg`: serialise the message, append its
bytes to the handshake transcript unless it is a Finished message
(`SSL3_MT_FINISHED` = 20), and send it as a record of type 22. -/
def tls_session_send_handshake_msg (c : Crypto) (s : TlsSession) (msg : Handshake) :
    Except TlsError TlsSession :=
  let fragment := handshakeMsgBytes msg
  let s1 := if msg.msg_type ≠ 20
            then {s with handshake_buffer := s.handshake_buffer ++ fragment}
            else s
  tls_session_send c s1 ⟨22, fragment⟩

/-- The ClientHello body built by `tls_session_send_client_hello`:
version (u16 BE), client_random, session-id length and session id,
cipher-suite list length and list, one zero byte (the compression
methods length, with no methods advertised), then the two extensions
inline: supported_groups (0x000A, data 00 02 00 17) and
ec_point_formats (0x000B, data 01 00), with no wrapping length for the
extensions block. -/
def tls_session_client_hello_body (s : TlsSession) : List Nat :=
  u16be s.version ++ s.client_random ++
  [s.session_id_size % 256] ++ s.session_id.take s.session_id_size ++
  u16be s.suites_size ++ s.suites.take s.suites_size ++
  [0] ++
  u16be 0x0A ++ u16be 4 ++ [0x00, 0x02, 0x00, 0x17] ++
  u16be 0x0B ++ u16be 2 ++ [0x01, 0x00]

/-- `tls_session_send_client_hello` (`SSL3_MT_CLIENT_HELLO` = 1). -/
def tls_session_send_client_hello (c : Crypto) (s : TlsSession) :
    Except TlsError TlsSession :=
  tls_session_send_handshake_msg c s ⟨1, tls_session_client_hello_body s⟩

/-- `tls_session_send_finished` (`SSL3_MT_FINISHED` = 20); the body is
the 12 verify-data bytes. -/
def tls_session_send_finished (c : Crypto) (s : TlsSession) (verify_data : List Nat) :
    Except TlsError TlsSession :=
  tls_session_send_handshake_msg c s ⟨20, verify_data⟩

/-- `tls_session_send_certificate` (`SSL3_MT_CERTIFICATE` = 11): outer
u24 length, inner u24 length, two zero padding bytes (the "garbage
bytes" quirk), then the raw client certificate. -/
def tls_session_send_certificate (c : Crypto) (pd : SensorPairingData)
    (s : TlsSession) : Except TlsError TlsSession :=
  tls_session_send_handshake_msg c s
    ⟨11, u24be pd.certificate_size ++ u24be pd.certificate_size ++ [0, 0] ++
         pd.client_cert_raw.take pd.certificate_size⟩

/-- `tls_session_send_client_key_exchange` (`SSL3_MT_CLIENT_KEY_EXCHANGE`
= 16): the body is the raw ephemeral public key, no length prefix. -/
def tls_session_send_client_key_exchange (c : Crypto) (s : TlsSession)
    (key : List Nat) : Except TlsError TlsSession :=
  tls_session_send_handshake_msg c s ⟨16, key⟩

/-- `tls_session_send_certificate_verify` (`SSL3_MT_CERTIFICATE_VERIFY`
= 15): the body is the raw signature, no algorithm prefix. -/
def tls_session_send_certificate_verify (c : Crypto) (s : TlsSession)
    (signature : List Nat) : Except TlsError TlsSession :=
  tls_session_send_handshake_msg c s ⟨15, signature⟩

/-- `tls_session_send_change_cipher_spec`: send the one-byte record of
type 20, then flush the content buffer. -/
def tls_session_send_change_cipher_spec (c : Crypto) (s : TlsSession) :
    Except TlsError TlsSession :=
  match tls_session_send c s ⟨20, [1]⟩ with
  | .error e => .error e
  | .ok s1 => tls_session_flush_content_buffer c s1

/-- The state after `tls_session_new` + `tls_session_init`:
`g_new0`-zeroed fields, a 7-byte zero session id, fresh 32-byte client
random, version `TLS1_2_VERSION` = 0x0303, the single suite 0xC02E
(bytes C0 2E), PRF digest `SN_sha384`, all cipher-state slots
`TLS_NULL_WITH_NULL_NULL`, empty buffers. -/
def tls_session_init (c : Crypto) : TlsSession :=
  { send_closed := false
    recv_closed := false
    handshake_phase := .HANDSHAKE_BEGIN
    handshake_buffer := []
    server_cs := 0
    client_cs := 0
    pending_cs := 0
    master_secret := List.replicate 48 0
    client_random := c.rand 32
    server_random := List.replicate 32 0
    encr_seq_num := 0
    decr_seq_num := 0
    encr_key := []
    decr_key := []
    encr_iv := []
    decr_iv := []
    version := 0x0303
    session_id_size := 7
    session_id := List.replicate 7 0
    suites_size := 2
    suites := [0xC0, 0x2E]
    send_buffer := []
    content_buffer := []
    content_buffer_type := 0
    application_data := []
    hash_algo := "SHA384"
    cert_request := 0 }

/-- `tls_session_receive_handshake`: first append the message bytes to
the handshake transcript unless the message is Finished (the
"BROKEN ... only updates it when the message isn't Finished" quirk),
then dispatch on the message type.  `SSL3_MT_SERVER_HELLO` = 2,
`SSL3_MT_CERTIFICATE_REQUEST` = 13, `SSL3_MT_SERVER_DONE` = 14,
`SSL3_MT_FINISHED` = 20; any other type is ignored (the C switch has no
default for handshake messages).  Phase assertions, the single
supported suite 0xC02E, the null compression method, the
`ECDSA_SIGN` = 64 certificate type and the verify-data comparison are
all `g_assert`ed in the C code, hence `assertFail`.  The
`tls_session_handshake_hash` helper extracts, re-initialises and
restores the transcript around hashing, leaving it unchanged, so it is
modelled as a plain read. -/
def tls_session_receive_handshake (c : Crypto) (pd : SensorPairingData)
    (s : TlsSession) (msg : Handshake) : Except TlsError TlsSession :=
  let s := if msg.msg_type ≠ 20
           then {s with handshake_buffer := s.handshake_buffer ++ handshakeMsgBytes msg}
           else s
  if msg.msg_type = 2 then
    if s.handshake_phase ≠ .CLIENT_HELLO_SENT then .error .assertFail
    else if msg.body.length < 35 then .error .assertFail
    else
      let session_id_len := msg.body.getD 34 0
      if session_id_len > 32 then .error .assertFail
      else if msg.body.length < 35 + session_id_len + 3 then .error .assertFail
      else
        let random := (msg.body.drop 2).take 32
        let session_id := (msg.body.drop 35).take session_id_len
        let cipher_suite := msg.body.getD (35 + session_id_len) 0 * 256 +
                            msg.body.getD (36 + session_id_len) 0
        let compr_method := msg.body.getD (37 + session_id_len) 0
        if cipher_suite ≠ 0xC02E then .error .assertFail
        else if compr_method ≠ 0 then .error .assertFail
        else .ok {s with server_random := random, session_id := session_id,
                         pending_cs := cipher_suite,
                         handshake_phase := .SUITE_HANDSHAKE}
  else if msg.msg_type = 13 then
    if s.handshake_phase ≠ .SUITE_HANDSHAKE then .error .assertFail
    else if s.cert_request ≠ 0 then .error .assertFail
    else if msg.body.length < 2 then .error .assertFail
    else if msg.body.getD 0 0 ≠ 1 then .error .assertFail
    else .ok {s with cert_request := msg.body.getD 1 0}
  else if msg.msg_type = 14 then
    if s.handshake_phase ≠ .SUITE_HANDSHAKE then .error .assertFail
    else if s.cert_request ≠ 64 then .error .assertFail
    else
      match tls_session_send_certificate c pd s with
      | .error e => .error e
      | .ok s1 =>
        if c.ephPub.length = 0 then .error .assertFail
        else
          match tls_session_send_client_key_exchange c s1 c.ephPub with
          | .error e => .error e
          | .ok s2 =>
            let signature := c.ecdsaSign s2.handshake_buffer
            match tls_session_send_certificate_verify c s2 signature with
            | .error e => .error e
            | .ok s3 =>
              let rnd := s3.client_random ++ s3.server_random
              let ms := c.prf c.premaster "master secret" rnd 48 s3.hash_algo
              let s4 := {s3 with master_secret := ms}
              let key_block := c.prf s4.master_secret "key expansion" rnd 128 s4.hash_algo
              match tls_session_send_change_cipher_spec c s4 with
              | .error e => .error e
              | .ok s5 =>
                let s6 := {s5 with
                  encr_key := key_block.take 32,
                  decr_key := (key_block.drop 32).take 32,
                  encr_iv := (key_block.drop 64).take 4,
                  decr_iv := (key_block.drop 68).take 4,
                  client_cs := s5.pending_cs}
                let digest := c.sha256 s6.handshake_buffer
                let verify_data :=
                  c.prf s6.master_secret "client finished" digest 12 s6.hash_algo
                match tls_session_send_finished c s6 verify_data with
                | .error e => .error e
                | .ok s7 => .ok {s7 with handshake_phase := .SERVER_DONE}
  else if msg.msg_type = 20 then
    if s.handshake_phase ≠ .SERVER_DONE then .error .assertFail
    else if s.server_cs ≠ s.client_cs then .error .assertFail
    else if msg.body.length < 12 then .error .assertFail
    else
      let remote_verify_data := msg.body.take 12
      let digest := c.sha256 s.handshake_buffer
      let verify_data := c.prf s.master_secret "server finished" digest 12 s.hash_algo
      if verify_data ≠ remote_verify_data then .error .assertFail
      else .ok {s with handshake_phase := .FINISHED}
  else .ok s

/-- The message loop of `tls_session_receive` over one record's
fragment.  `SSL3_RT_CHANGE_CIPHER_SPEC` = 20 activates the pending
read cipher per message byte; `SSL3_RT_ALERT` = 21 handles close_notify
(description 0: when the send side is already closed, mark the receive
side closed and return at once; otherwise auto-close and then
`g_assert(FALSE)`), fatal alerts (level 2: auto-close then
`g_assert_not_reached`), and ignores other warning alerts;
`SSL3_RT_HANDSHAKE` = 22 parses type / u24 length / body messages;
`SSL3_RT_APPLICATION_DATA` = 23 appends all remaining bytes to the
inbound application-data buffer; any other record type is a hard
error.  Each iteration consumes at least one byte, so the fuel
`fragment.length + 1` supplied by `tls_session_receive` can never run
out; the fuel-0 branch is unreachable. -/
def tls_session_receive_loop (c : Crypto) (pd : SensorPairingData) :
    Nat → TlsSession → Nat → List Nat → Except TlsError TlsSession
  | 0, _, _, _ => .error .assertFail
  | _ + 1, s, _, [] => .ok s
  | fuel + 1, s, rtype, b :: rest =>
    if rtype = 20 then
      if b = 1 then
        tls_session_receive_loop c pd fuel
          {s with server_cs := s.pending_cs, pending_cs := 0} rtype rest
      else .error .assertFail
    else if rtype = 21 then
      match rest with
      | [] => .error .assertFail
      | d :: rest2 =>
        if d = 0 then
          if s.send_closed then .ok {s with recv_closed := true}
          else
            match tls_session_close c s with
            | .error e => .error e
            | .ok _ => .error .assertFail
        else if b = 2 then
          match tls_session_close c s with
          | .error e => .error e
          | .ok _ => .error .assertFail
        else tls_session_receive_loop c pd fuel s rtype rest2
    else if rtype = 22 then
      match rest with
      | l2 :: l1 :: l0 :: rest3 =>
        let len := l2 * 65536 + l1 * 256 + l0
        if rest3.length < len then .error .assertFail
        else
          match tls_session_receive_handshake c pd s ⟨b, rest3.take len⟩ with
          | .error e => .error e
          | .ok s1 => tls_session_receive_loop c pd fuel s1 rtype (rest3.drop len)
      | _ => .error .assertFail
    else if rtype = 23 then
      .ok {s with application_data := s.application_data ++ b :: rest}
    else .error .assertFail

/-- `tls_session_receive`: process one plaintext record. -/
def tls_session_receive (c : Crypto) (pd : SensorPairingData)
    (s : TlsSession) (record : TlsRecord) : Except TlsError TlsSession :=
  tls_session_receive_loop c pd (record.fragment.length + 1) s record.type record.fragment

/-- The record loop of `tls_session_receive_ciphertext`: parse the
5-byte header (type, u16 BE version, u16 BE length), `g_assert` that
the full fragment is present and that the version matches the
session's, decrypt, and process the plaintext record.  The C code
ignores `tls_session_decrypt`'s return value; that value can only be
an error when `server_cs` is neither of the two suite values the
session ever stores, so the propagating bind used here agrees with it
on every reachable path.  Each iteration consumes at least five bytes,
so the fuel `data.length + 1` can never run out. -/
def tls_session_receive_ciphertext_loop (c : Crypto) (pd : SensorPairingData) :
    Nat → TlsSession → List Nat → Except TlsError TlsSession
  | 0, _, _ => .error .assertFail
  | _ + 1, s, [] => .ok s
  | fuel + 1, s, t :: v1 :: v0 :: l1 :: l0 :: rest =>
    let version := v1 * 256 + v0
    let clen := l1 * 256 + l0
    if rest.length < clen then .error .assertFail
    else if version ≠ s.version then .error .assertFail
    else
      match tls_session_decrypt c s t version (rest.take clen) with
      | .error e => .error e
      | .ok (s1, pfrag) =>
        match tls_session_receive c pd s1 ⟨t, pfrag⟩ with
        | .error e => .error e
        | .ok s2 => tls_session_receive_ciphertext_loop c pd fuel s2 (rest.drop clen)
  | _ + 1, _, _ => .error .assertFail

/-- `tls_session_receive_ciphertext`: assert the receive side open and
process the inbound bytes as a sequence of records. -/
def tls_session_receive_ciphertext (c : Crypto) (pd : SensorPairingData)
    (s : TlsSession) (data : List Nat) : Except TlsError TlsSession :=
  if s.recv_closed then .error .assertFail
  else tls_session_receive_ciphertext_loop c pd (data.length + 1) s data

/-- `tls_session_establish`: assert `HANDSHAKE_BEGIN`, emit the
ClientHello, advance to `CLIENT_HELLO_SENT`. -/
def tls_session_establish (c : Crypto) (s : TlsSession) : Except TlsError TlsSession :=
  if s.handshake_phase ≠ .HANDSHAKE_BEGIN then .error .assertFail
  else
    match tls_session_send_client_hello c s with
    | .error e => .error e
    | .ok s1 => .ok {s1 with handshake_phase := .CLIENT_HELLO_SENT}

/-- `tls_session_send_application_data`: send the payload as a record
of type 23. -/
def tls_session_send_application_data (c : Crypto) (s : TlsSession)
    (data : List Nat) : Except TlsError TlsSession :=
  tls_session_send c s ⟨23, data⟩

/-- `tls_session_wrap`: send an application-data record, then flush. -/
def tls_session_wrap (c : Crypto) (s : TlsSession) (pdata : List Nat) :
    Except TlsError (TlsSession × List Nat) :=
  match tls_session_send_application_data c s pdata with
  | .error e => .error e
  | .ok s1 => tls_session_flush_send_buffer c s1

/-- `tls_session_unwrap`: feed the ciphertext through
`tls_session_receive_ciphertext`, then detach and return the
accumulated decrypted application data. -/
def tls_session_unwrap (c : Crypto) (pd : SensorPairingData) (s : TlsSession)
    (cdata : List Nat) : Except TlsError (TlsSession × List Nat) :=
  match tls_session_receive_ciphertext c pd s cdata with
  | .error e => .error e
  | .ok s1 => .ok ({s1 with application_data := []}, s1.application_data)

/-- The session states reachable through the facade: the freshly
initialised session, extended by any sequence of successful facade
operations. -/
inductive Reach (c : Crypto) (pd : SensorPairingData) : TlsSession → Prop where
  | init : Reach c pd (tls_session_init c)
  | establish {s s'} : Reach c pd s →
      tls_session_establish c s = .ok s' → Reach c pd s'
  | wrap {s s' out pdata} : Reach c pd s →
      tls_session_wrap c s pdata = .ok (s', out) → Reach c pd s'
  | unwrap {s s' out cdata} : Reach c pd s →
      tls_session_unwrap c pd s cdata = .ok (s', out) → Reach c pd s'
  | recv {s s' data} : Reach c pd s →
      tls_session_receive_ciphertext c pd s data = .ok s' → Reach c pd s'
  | close {s s'} : Reach c pd s →
      tls_session_close c s = .ok s' → Reach c pd s'
  | flush {s s' out} : Reach c pd s →
      tls_session_flush_send_buffer c s = .ok (s', out) → Reach c pd s'

deriving instance DecidableEq for Except

/-- A concrete crypto provider used to instantiate theorems on
concrete inputs: every primitive returns zero bytes of the contracted
length. -/
def cZero : Crypto where
  rand := fun n => List.replicate n 0
  sha256 := fun _ => List.replicate 32 0
  prf := fun _ _ _ n _ => List.replicate n 0
  gcmEnc := fun _ _ _ pt => (pt, List.replicate 16 0)
  gcmDec := fun _ _ _ ct _ => ct
  ephPub := List.replicate 65 0
  premaster := List.replicate 32 0
  ecdsaSign := fun _ => List.replicate 64 0
  rand_len := fun n => List.length_replicate n 0
  prf_len := fun _ _ _ n _ => List.length_replicate n 0
  gcmEnc_ct_len := fun _ _ _ _ => rfl
  gcmEnc_tag_len := fun _ _ _ _ => List.length_replicate 16 0
  gcmDec_len := fun _ _ _ _ _ => rfl

/-- A concrete pairing-data value for instantiating theorems. -/
def pdZero : SensorPairingData := ⟨List.replicate 4 0, 4⟩

/-- Whether an `Except` is a success. -/
def isOkB {α : Type} : Except TlsError α → Bool
  | .ok _ => true
  | .error _ => false

/-- The success value of an `Except`, with a default. -/
def exceptOk {α : Type} (e : Except TlsError α) (d : α) : α :=
  match e with
  | .ok a => a
  | .error _ => d

/-- The content-buffer bytes `tls_session_send` keeps in place: the
current ones exactly when no record type or the given record type is
pending (otherwise they are flushed out before appending). -/
def sendKeep (s : TlsSession) (t : Nat) : List Nat :=
  if s.content_buffer_type = 0 ∨ s.content_buffer_type = t then s.content_buffer else []

/-- The master secret derived at ServerHelloDone:
`PRF(premaster, "master secret", client_random || server_random, 48)`
under the session's PRF digest. -/
def serverDoneMS (c : Crypto) (s : TlsSession) : List Nat :=
  c.prf c.premaster "master secret" (s.client_random ++ s.server_random) 48 s.hash_algo

/-- The key block derived at ServerHelloDone:
`PRF(master_secret, "key expansion", client_random || server_random, 128)`
under the session's PRF digest. -/
def serverDoneKB (c : Crypto) (s : TlsSession) : List Nat :=
  c.prf (serverDoneMS c s) "key expansion" (s.client_random ++ s.server_random) 128 s.hash_algo

/-- The ClientHello body as claim C6 describes it, following the
claim's words: version, client_random, session-id length 7 and seven
zero bytes, cipher-suites length 2 and suite 0xC02E, the 1-byte
compression_methods length and list omitted, then the supported_groups
and ec_point_formats extensions inline with no wrapping length for the
extensions block (each extension as type, 2-byte data length and
data). -/
def clientHelloBodyClaimed (version : Nat) (client_random : List Nat) : List Nat :=
  u16be version ++ client_random ++
  [7] ++ List.replicate 7 0 ++
  [0x00, 0x02] ++ [0xC0, 0x2E] ++
  u16be 0x0A ++ u16be 4 ++ [0x00, 0x02, 0x00, 0x17] ++
  u16be 0x0B ++ u16be 2 ++ [0x01, 0x00]

/-- Invariant I4 of the spec: the content buffer is empty exactly when
no record type is pending. -/
def ContentTypeInv (s : TlsSession) : Prop :=
  s.content_buffer = [] ↔ s.content_buffer_type = 0

theorem exceptOk_eq {α : Type} {e : Except TlsError α} (d : α) (h : isOkB e = true) :
    e = .ok (exceptOk e d) := by
  cases e with
  | ok a => rfl
  | error x => simp [isOkB] at h

/-- `tls_session_encrypt` either leaves the session unchanged (null
cipher) or only bumps `encr_seq_num` (AEAD). -/
theorem tls_session_encrypt_shape {c : Crypto} {s : TlsSession} {type : Nat}
    {ptext : List Nat} {s' : TlsSession} {out : List Nat}
    (h : tls_session_encrypt c s type ptext = .ok (s', out)) :
    s' = s ∨
      s' = {s with encr_seq_num := (s.encr_seq_num + 1) % 18446744073709551616} := by
  unfold tls_session_encrypt at h
  split at h
  · left
    simp only [Except.ok.injEq, Prod.mk.injEq] at h
    exact h.1.symm
  · split at h
    · right
      simp only [Except.ok.injEq, Prod.mk.injEq] at h
      exact h.1.symm
    · exact absurd h (by simp)

/-- `tls_session_decrypt` either leaves the session unchanged (null
cipher) or only bumps `decr_seq_num` (AEAD). -/
theorem tls_session_decrypt_shape {c : Crypto} {s : TlsSession} {type version : Nat}
    {ctext : List Nat} {s' : TlsSession} {out : List Nat}
    (h : tls_session_decrypt c s type version ctext = .ok (s', out)) :
    s' = s ∨
      s' = {s with decr_seq_num := (s.decr_seq_num + 1) % 18446744073709551616} := by
  unfold tls_session_decrypt at h
  split at h
  · left
    simp only [Except.ok.injEq, Prod.mk.injEq] at h
    exact h.1.symm
  · split at h
    · split at h
      · exact absurd h (by simp)
      · right
        simp only [Except.ok.injEq, Prod.mk.injEq] at h
        exact h.1.symm
    · exact absurd h (by simp)

/-- `tls_session_flush_content_buffer` is the identity when no record
type is pending; otherwise it empties the content buffer, clears the
pending type and only touches `send_buffer` and `encr_seq_num`
besides. -/
theorem tls_session_flush_content_buffer_shape {c : Crypto} {s s' : TlsSession}
    (h : tls_session_flush_content_buffer c s = .ok s') :
    (s.content_buffer_type = 0 ∧ s' = s) ∨
    (s.content_buffer_type ≠ 0 ∧ ∃ sq sb,
      s' = {s with
            encr_seq_num := sq,
            send_buffer := sb,
            content_buffer := [],
            content_buffer_type := 0}) := by
  unfold tls_session_flush_content_buffer at h
  split at h
  · rename_i hne
    right
    refine ⟨hne, ?_⟩
    split at h
    · exact absurd h (by simp)
    · rename_i s1 ctext heq
      rcases tls_session_encrypt_shape heq with h1 | h1 <;> subst h1 <;>
        simp only [Except.ok.injEq] at h <;> subst h <;> exact ⟨_, _, rfl⟩
  · rename_i hz
    left
    simp only [Except.ok.injEq] at h
    exact ⟨not_not.mp hz, h.symm⟩

/-- `tls_session_send` requires the send side open, and besides
`send_buffer` / `encr_seq_num` (which change only through an interposed
flush) its whole effect is: the content buffer keeps its bytes exactly
when no record type or the same record type is pending (otherwise they
are flushed out first), gains the new fragment, and the pending type
becomes the record's type. -/
theorem tls_session_send_shape {c : Crypto} {s : TlsSession} {r : TlsRecord}
    {s' : TlsSession} (h : tls_session_send c s r = .ok s') :
    s.send_closed = false ∧ ∃ sq sb,
      s' = {s with
            encr_seq_num := sq,
            send_buffer := sb,
            content_buffer := sendKeep s r.type ++ r.fragment,
            content_buffer_type := r.type} := by
  unfold tls_session_send at h
  split at h
  · exact absurd h (by simp)
  · rename_i hsc
    refine ⟨by simpa using hsc, ?_⟩
    split at h
    · exact absurd h (by simp)
    · rename_i s1 heq
      by_cases hcond : s.content_buffer_type ≠ 0 ∧ s.content_buffer_type ≠ r.type
      · rw [if_pos hcond] at heq
        rcases tls_session_flush_content_buffer_shape heq with ⟨hz, h1⟩ | ⟨_, sq, sb, h1⟩
        · exact absurd hz hcond.1
        · subst h1
          simp only [Except.ok.injEq] at h
          subst h
          refine ⟨sq, sb, ?_⟩
          simp only [sendKeep]
          rw [if_neg (by push_neg; exact hcond)]
      · rw [if_neg hcond] at heq
        simp only [Except.ok.injEq] at heq
        subst heq
        simp only [Except.ok.injEq] at h
        subst h
        refine ⟨s.encr_seq_num, s.send_buffer, ?_⟩
        simp only [sendKeep]
        have hor : s.content_buffer_type = 0 ∨ s.content_buffer_type = r.type := by
          rcases not_and_or.mp hcond with h1 | h1
          · exact Or.inl (not_not.mp h1)
          · exact Or.inr (not_not.mp h1)
        rw [if_pos hor]

/-- After a successful `tls_session_flush_send_buffer` the send buffer
is detached (empty) and no record type is pending; if a type was
pending the content buffer is now empty, and if none was the session
merely loses its send buffer, which is returned. -/
theorem tls_session_flush_send_buffer_shape {c : Crypto} {s s' : TlsSession}
    {out : List Nat} (h : tls_session_flush_send_buffer c s = .ok (s', out)) :
    s'.send_buffer = [] ∧ s'.content_buffer_type = 0 ∧
    (s.content_buffer_type ≠ 0 → s'.content_buffer = []) ∧
    (s.content_buffer_type = 0 →
      s' = {s with send_buffer := []} ∧ out = s.send_buffer) := by
  unfold tls_session_flush_send_buffer at h
  split at h
  · exact absurd h (by simp)
  · rename_i s1 heq
    simp only [Except.ok.injEq, Prod.mk.injEq] at h
    obtain ⟨h1, h2⟩ := h
    subst h1
    rcases tls_session_flush_content_buffer_shape heq with ⟨hz, h3⟩ | ⟨hnz, sq, sb, h3⟩
    · subst h3
      exact ⟨rfl, hz, fun hc => absurd hz hc, fun _ => ⟨rfl, h2.symm⟩⟩
    · subst h3
      exact ⟨rfl, rfl, fun _ => rfl, fun hc => absurd hc hnz⟩

/-- Flushing a session whose buffers are already empty returns the
session unchanged together with the empty byte string. -/
theorem tls_session_flush_send_buffer_fix {c : Crypto} {s : TlsSession}
    (h1 : s.content_buffer_type = 0) (h2 : s.send_buffer = []) :
    tls_session_flush_send_buffer c s = .ok (s, []) := by
  unfold tls_session_flush_send_buffer tls_session_flush_content_buffer
  rw [if_neg (by simp [h1])]
  rw [← h2]

/-- Sending a record with a nonempty fragment and a nonzero type
establishes the content-buffer invariant outright. -/
theorem tls_session_send_inv {c : Crypto} {s : TlsSession} {r : TlsRecord}
    {s' : TlsSession} (hf : r.fragment ≠ []) (ht : r.type ≠ 0)
    (h : tls_session_send c s r = .ok s') : ContentTypeInv s' := by
  obtain ⟨-, sq, sb, rfl⟩ := tls_session_send_shape h
  simp only [ContentTypeInv]
  constructor
  · intro hc
    rcases List.append_eq_nil.mp hc with ⟨-, h2⟩
    exact absurd h2 hf
  · intro h2
    exact absurd h2 ht

/-- `tls_session_send_handshake_msg` extends the transcript by the
message bytes unless the message is Finished, leaves the content
buffer nonempty with pending type 22, and otherwise touches only
`send_buffer` and `encr_seq_num`. -/
theorem tls_session_send_handshake_msg_shape {c : Crypto} {s : TlsSession}
    {msg : Handshake} {s' : TlsSession}
    (h : tls_session_send_handshake_msg c s msg = .ok s') :
    ∃ sq sb cb, cb ≠ [] ∧
      s' = {s with
            encr_seq_num := sq,
            send_buffer := sb,
            content_buffer := cb,
            content_buffer_type := 22,
            handshake_buffer := s.handshake_buffer ++
              (if msg.msg_type = 20 then [] else handshakeMsgBytes msg)} := by
  unfold tls_session_send_handshake_msg at h
  by_cases h20 : msg.msg_type = 20
  · simp only [h20, ne_eq, not_true_eq_false, if_false] at h
    obtain ⟨-, sq, sb, rfl⟩ := tls_session_send_shape h
    refine ⟨sq, sb, sendKeep s 22 ++ handshakeMsgBytes msg, ?_, ?_⟩
    · intro hc
      rcases List.append_eq_nil.mp hc with ⟨-, h2⟩
      simp [handshakeMsgBytes] at h2
    · simp [h20, sendKeep]
  · simp only [ne_eq, h20, not_false_eq_true, if_true] at h
    obtain ⟨-, sq, sb, rfl⟩ := tls_session_send_shape h
    refine ⟨sq, sb, sendKeep s 22 ++ handshakeMsgBytes msg, ?_, ?_⟩
    · intro hc
      rcases List.append_eq_nil.mp hc with ⟨-, h2⟩
      simp [handshakeMsgBytes] at h2
    · simp [h20, sendKeep]

/-- Every handshake-message send establishes the content-buffer
invariant. -/
theorem tls_session_send_handshake_msg_inv {c : Crypto} {s : TlsSession}
    {msg : Handshake} {s' : TlsSession}
    (h : tls_session_send_handshake_msg c s msg = .ok s') : ContentTypeInv s' := by
  obtain ⟨sq, sb, cb, hcb, rfl⟩ := tls_session_send_handshake_msg_shape h
  simp [ContentTypeInv, hcb]

/-- `tls_session_send_alert` leaves the content buffer nonempty with
pending type 21, possibly closing the send side. -/
theorem tls_session_send_alert_shape {c : Crypto} {s : TlsSession}
    {level description : Nat} {s' : TlsSession}
    (h : tls_session_send_alert c s level description = .ok s') :
    ∃ sq sb cb sc, cb ≠ [] ∧
      s' = {s with
            encr_seq_num := sq,
            send_buffer := sb,
            content_buffer := cb,
            content_buffer_type := 21,
            send_closed := sc} := by
  unfold tls_session_send_alert at h
  split at h
  · exact absurd h (by simp)
  · rename_i s1 heq
    simp only [Except.ok.injEq] at h
    obtain ⟨-, sq, sb, rfl⟩ := tls_session_send_shape heq
    subst h
    split
    · refine ⟨sq, sb, _, true, ?_, rfl⟩
      intro hc
      rcases List.append_eq_nil.mp hc with ⟨-, h2⟩
      simp at h2
    · refine ⟨sq, sb, _, s.send_closed, ?_, rfl⟩
      intro hc
      rcases List.append_eq_nil.mp hc with ⟨-, h2⟩
      simp at h2

/-- `tls_session_close` preserves the content-buffer invariant. -/
theorem tls_session_close_inv {c : Crypto} {s s' : TlsSession}
    (hi : ContentTypeInv s) (h : tls_session_close c s = .ok s') :
    ContentTypeInv s' := by
  unfold tls_session_close at h
  split at h
  · simp only [Except.ok.injEq] at h
    subst h
    exact hi
  · split at h
    · exact absurd h (by simp)
    · rename_i s1 heq
      simp only [Except.ok.injEq] at h
      subst h
      obtain ⟨sq, sb, cb, sc, hcb, rfl⟩ := tls_session_send_alert_shape heq
      simp [ContentTypeInv, hcb]

/-- `tls_session_send_change_cipher_spec` flushes: afterwards the
content buffer is empty with no pending type, and besides that only
`send_buffer` and `encr_seq_num` change. -/
theorem tls_session_send_change_cipher_spec_shape {c : Crypto} {s s' : TlsSession}
    (h : tls_session_send_change_cipher_spec c s = .ok s') :
    ∃ sq sb,
      s' = {s with
            encr_seq_num := sq,
            send_buffer := sb,
            content_buffer := [],
            content_buffer_type := 0} := by
  unfold tls_session_send_change_cipher_spec at h
  split at h
  · exact absurd h (by simp)
  · rename_i s1 heq
    obtain ⟨-, sq, sb, rfl⟩ := tls_session_send_shape heq
    rcases tls_session_flush_content_buffer_shape h with ⟨hz, h1⟩ | ⟨-, sq2, sb2, rfl⟩
    · simp at hz
    · exact ⟨sq2, sb2, rfl⟩

/-- Processing a ServerHelloDone message (type 14) appends the message
and the emitted Certificate / ClientKeyExchange / CertificateVerify
bytes to the transcript, derives the master secret and the key block
from it with the session's PRF digest, splits the key block as client
write key (32) / server write key (32) / client write IV (4) / server
write IV (4), activates the pending suite for writing and advances the
phase to `SERVER_DONE`; the content buffer ends nonempty (holding the
Finished record) with pending type 22. -/
theorem tls_session_receive_handshake_serverdone_shape {c : Crypto}
    {pd : SensorPairingData} {s : TlsSession} {msg : Handshake} {s' : TlsSession}
    (htype : msg.msg_type = 14)
    (h : tls_session_receive_handshake c pd s msg = .ok s') :
    s'.handshake_phase = .SERVER_DONE ∧
    s'.master_secret = serverDoneMS c s ∧
    s'.encr_key = (serverDoneKB c s).take 32 ∧
    s'.decr_key = ((serverDoneKB c s).drop 32).take 32 ∧
    s'.encr_iv = ((serverDoneKB c s).drop 64).take 4 ∧
    s'.decr_iv = ((serverDoneKB c s).drop 68).take 4 ∧
    s'.client_cs = s.pending_cs ∧
    s'.content_buffer ≠ [] ∧
    s'.content_buffer_type = 22 ∧
    ∃ rest, s'.handshake_buffer = s.handshake_buffer ++ handshakeMsgBytes msg ++ rest := by
  obtain ⟨mt, body⟩ := msg
  simp only at htype
  subst htype
  unfold tls_session_receive_handshake at h
  simp only [show ¬((14:Nat) = 20) from by decide, show ¬((14:Nat) = 2) from by decide,
    show ¬((14:Nat) = 13) from by decide, ne_eq, not_false_eq_true, if_true, if_false,
    ite_true, ite_false] at h
  split at h
  · simp at h
  split at h
  · simp at h
  split at h
  · simp at h
  rename_i s1 heq1
  split at h
  · simp at h
  split at h
  · simp at h
  rename_i s2 heq2
  split at h
  · simp at h
  rename_i s3 heq3
  split at h
  · simp at h
  rename_i s5 heq5
  split at h
  · simp at h
  rename_i s7 heq7
  simp only [Except.ok.injEq] at h
  subst h
  obtain ⟨sqA, sbA, cbA, hcbA, rfl⟩ := tls_session_send_handshake_msg_shape heq1
  obtain ⟨sqB, sbB, cbB, hcbB, rfl⟩ := tls_session_send_handshake_msg_shape heq2
  obtain ⟨sqC, sbC, cbC, hcbC, rfl⟩ := tls_session_send_handshake_msg_shape heq3
  obtain ⟨sqD, sbD, rfl⟩ := tls_session_send_change_cipher_spec_shape heq5
  obtain ⟨sqE, sbE, cbE, hcbE, rfl⟩ := tls_session_send_handshake_msg_shape heq7
  refine ⟨rfl, rfl, rfl, rfl, rfl, rfl, rfl, hcbE, rfl, ?_⟩
  simp only [List.append_assoc]
  exact ⟨_, rfl⟩

/-- Effects of `tls_session_receive_handshake` on the content buffer
and the handshake transcript: the content-buffer invariant is
preserved, and the transcript is left unchanged by a Finished message
while any other message's bytes are appended (followed only by the
bytes of further handshake messages the session itself emits in
response). -/
theorem tls_session_receive_handshake_effects {c : Crypto} {pd : SensorPairingData}
    {s : TlsSession} {msg : Handshake} {s' : TlsSession}
    (h : tls_session_receive_handshake c pd s msg = .ok s') :
    (ContentTypeInv s → ContentTypeInv s') ∧
    (msg.msg_type = 20 → s'.handshake_buffer = s.handshake_buffer) ∧
    (msg.msg_type ≠ 20 →
      ∃ rest, s'.handshake_buffer = s.handshake_buffer ++ handshakeMsgBytes msg ++ rest) := by
  obtain ⟨mt, body⟩ := msg
  simp only at h ⊢
  by_cases h14 : mt = 14
  · subst h14
    obtain ⟨-, -, -, -, -, -, -, hcb, hcbt, rest, hhb⟩ :=
      tls_session_receive_handshake_serverdone_shape rfl h
    refine ⟨?_, ?_, ?_⟩
    · intro _
      simp only [ContentTypeInv, hcbt]
      constructor
      · intro hc
        exact absurd hc hcb
      · intro hz
        exact absurd hz (by decide)
    · intro h20
      exact absurd h20 (by decide)
    · intro _
      exact ⟨rest, hhb⟩
  by_cases h2 : mt = 2
  · subst h2
    unfold tls_session_receive_handshake at h
    simp only [show ¬((2:Nat) = 20) from by decide, show ((2:Nat) = 2) from rfl, ne_eq,
      not_false_eq_true, if_true, if_false, ite_true, ite_false] at h
    split at h
    · simp at h
    split at h
    · simp at h
    split at h
    · simp at h
    split at h
    · simp at h
    split at h
    · simp at h
    split at h
    · simp at h
    simp only [Except.ok.injEq] at h
    subst h
    refine ⟨fun hi => hi, ?_, ?_⟩
    · intro h20
      exact absurd h20 (by decide)
    · intro _
      exact ⟨[], by simp⟩
  by_cases h13 : mt = 13
  · subst h13
    unfold tls_session_receive_handshake at h
    simp only [show ¬((13:Nat) = 20) from by decide, show ¬((13:Nat) = 2) from by decide,
      show ((13:Nat) = 13) from rfl, ne_eq, not_false_eq_true, if_true, if_false,
      ite_true, ite_false] at h
    split at h
    · simp at h
    split at h
    · simp at h
    split at h
    · simp at h
    split at h
    · simp at h
    simp only [Except.ok.injEq] at h
    subst h
    refine ⟨fun hi => hi, ?_, ?_⟩
    · intro h20
      exact absurd h20 (by decide)
    · intro _
      exact ⟨[], by simp⟩
  by_cases h20 : mt = 20
  · subst h20
    unfold tls_session_receive_handshake at h
    simp only [show ((20:Nat) = 20) from rfl, show ¬((20:Nat) = 2) from by decide,
      show ¬((20:Nat) = 13) from by decide, show ¬((20:Nat) = 14) from by decide, ne_eq,
      not_true_eq_false, if_true, if_false, ite_true, ite_false] at h
    split at h
    · simp at h
    split at h
    · simp at h
    split at h
    · simp at h
    split at h
    · simp at h
    simp only [Except.ok.injEq] at h
    subst h
    refine ⟨fun hi => hi, ?_, ?_⟩
    · intro _
      rfl
    · intro hne
      exact absurd rfl hne
  · unfold tls_session_receive_handshake at h
    simp only [h2, h13, h14, h20, ne_eq, not_false_eq_true, if_true, if_false,
      ite_true, ite_false] at h
    simp only [Except.ok.injEq] at h
    subst h
    refine ⟨fun hi => hi, ?_, ?_⟩
    · intro hx
      exact absurd hx h20
    · intro _
      exact ⟨[], by simp⟩

/-- The record-content message loop preserves the content-buffer
invariant. -/
theorem tls_session_receive_loop_inv {c : Crypto} {pd : SensorPairingData} :
    ∀ {fuel : Nat} {s : TlsSession} {rtype : Nat} {frag : List Nat} {s' : TlsSession},
      ContentTypeInv s →
      tls_session_receive_loop c pd fuel s rtype frag = .ok s' → ContentTypeInv s' := by
  intro fuel
  induction fuel with
  | zero =>
    intro s rtype frag s' hi h
    simp [tls_session_receive_loop] at h
  | succ fuel ih =>
    intro s rtype frag s' hi h
    cases frag with
    | nil =>
      simp only [tls_session_receive_loop, Except.ok.injEq] at h
      subst h
      exact hi
    | cons b rest =>
      rw [tls_session_receive_loop.eq_def] at h
      simp only [] at h
      split at h
      · split at h
        · refine ih ?_ h
          exact hi
        · simp at h
      split at h
      · split at h
        · simp at h
        · split at h
          · split at h
            · simp only [Except.ok.injEq] at h
              subst h
              exact hi
            · split at h
              · simp at h
              · simp at h
          · split at h
            · split at h
              · simp at h
              · simp at h
            · exact ih hi h
      split at h
      · split at h
        · split at h
          · simp at h
          · split at h
            · simp at h
            · rename_i s1 heq
              exact ih ((tls_session_receive_handshake_effects heq).1 hi) h
        · simp at h
      split at h
      · simp only [Except.ok.injEq] at h
        subst h
        exact hi
      · simp at h

/-- The record loop of `tls_session_receive_ciphertext` preserves the
content-buffer invariant. -/
theorem tls_session_receive_ciphertext_loop_inv {c : Crypto} {pd : SensorPairingData} :
    ∀ {fuel : Nat} {s : TlsSession} {data : List Nat} {s' : TlsSession},
      ContentTypeInv s →
      tls_session_receive_ciphertext_loop c pd fuel s data = .ok s' → ContentTypeInv s' := by
  intro fuel
  induction fuel with
  | zero =>
    intro s data s' hi h
    simp [tls_session_receive_ciphertext_loop] at h
  | succ fuel ih =>
    intro s data s' hi h
    rcases data with _ | ⟨t, _ | ⟨v1, _ | ⟨v0, _ | ⟨l1, _ | ⟨l0, rest⟩⟩⟩⟩⟩
    · simp only [tls_session_receive_ciphertext_loop, Except.ok.injEq] at h
      subst h
      exact hi
    · simp [tls_session_receive_ciphertext_loop] at h
    · simp [tls_session_receive_ciphertext_loop] at h
    · simp [tls_session_receive_ciphertext_loop] at h
    · simp [tls_session_receive_ciphertext_loop] at h
    · rw [tls_session_receive_ciphertext_loop.eq_def] at h
      simp only [] at h
      split at h
      · simp at h
      split at h
      · simp at h
      split at h
      · simp at h
      rename_i s1 pfrag heq
      split at h
      · simp at h
      rename_i s2 heq2
      have hi1 : ContentTypeInv s1 := by
        rcases tls_session_decrypt_shape heq with h1 | h1 <;> subst h1 <;> exact hi
      have hi2 : ContentTypeInv s2 := tls_session_receive_loop_inv hi1 heq2
      exact ih hi2 h

/-- `tls_session_receive_ciphertext` preserves the content-buffer
invariant. -/
theorem tls_session_receive_ciphertext_inv {c : Crypto} {pd : SensorPairingData}
    {s : TlsSession} {data : List Nat} {s' : TlsSession} (hi : ContentTypeInv s)
    (h : tls_session_receive_ciphertext c pd s data = .ok s') : ContentTypeInv s' := by
  unfold tls_session_receive_ciphertext at h
  split at h
  · simp at h
  · exact tls_session_receive_ciphertext_loop_inv hi h

/-- `tls_session_establish` establishes the content-buffer invariant. -/
theorem tls_session_establish_inv {c : Crypto} {s s' : TlsSession}
    (h : tls_session_establish c s = .ok s') : ContentTypeInv s' := by
  unfold tls_session_establish at h
  split at h
  · simp at h
  · split at h
    · simp at h
    · rename_i s1 heq
      simp only [Except.ok.injEq] at h
      subst h
      have h2 : ContentTypeInv s1 := tls_session_send_handshake_msg_inv heq
      exact h2

/-- `tls_session_wrap` establishes the content-buffer invariant. -/
theorem tls_session_wrap_inv {c : Crypto} {s : TlsSession} {pdata : List Nat}
    {s' : TlsSession} {out : List Nat}
    (h : tls_session_wrap c s pdata = .ok (s', out)) : ContentTypeInv s' := by
  unfold tls_session_wrap at h
  split at h
  · simp at h
  · rename_i s1 heq
    obtain ⟨hsb, hcbt, hcb, h0⟩ := tls_session_flush_send_buffer_shape h
    obtain ⟨-, sq, sb, rfl⟩ := tls_session_send_shape heq
    exact ⟨fun _ => hcbt, fun _ => hcb (by simp)⟩

/-- `tls_session_unwrap` preserves the content-buffer invariant. -/
theorem tls_session_unwrap_inv {c : Crypto} {pd : SensorPairingData} {s : TlsSession}
    {cdata : List Nat} {s' : TlsSession} {out : List Nat}
    (h : tls_session_unwrap c pd s cdata = .ok (s', out)) (hi : ContentTypeInv s) :
    ContentTypeInv s' := by
  unfold tls_session_unwrap at h
  split at h
  · simp at h
  · rename_i s1 heq
    simp only [Except.ok.injEq, Prod.mk.injEq] at h
    obtain ⟨h1, -⟩ := h
    subst h1
    have h2 : ContentTypeInv s1 := tls_session_receive_ciphertext_inv hi heq
    exact h2

/-- `tls_session_flush_send_buffer` preserves the content-buffer
invariant. -/
theorem tls_session_flush_send_buffer_inv {c : Crypto} {s s' : TlsSession}
    {out : List Nat} (hi : ContentTypeInv s)
    (h : tls_session_flush_send_buffer c s = .ok (s', out)) : ContentTypeInv s' := by
  obtain ⟨hsb, hcbt, hcb, h0⟩ := tls_session_flush_send_buffer_shape h
  by_cases hz : s.content_buffer_type = 0
  · obtain ⟨h1, -⟩ := h0 hz
    subst h1
    exact hi
  · exact ⟨fun _ => hcbt, fun _ => hcb hz⟩

/-- Every reachable session state satisfies the content-buffer
invariant: the content buffer is empty exactly when no record type is
pending. -/
theorem reach_contentTypeInv {c : Crypto} {pd : SensorPairingData} {s : TlsSession}
    (h : Reach c pd s) : ContentTypeInv s := by
  induction h with
  | init => exact ⟨fun _ => rfl, fun _ => rfl⟩
  | establish _ hstep ih => exact tls_session_establish_inv hstep
  | wrap _ hstep ih => exact tls_session_wrap_inv hstep
  | unwrap _ hstep ih => exact tls_session_unwrap_inv hstep ih
  | recv _ hstep ih => exact tls_session_receive_ciphertext_inv ih hstep
  | close _ hstep ih => exact tls_session_close_inv ih hstep
  | flush _ hstep ih => exact tls_session_flush_send_buffer_inv ih hstep

/-- C1: a handshake message's bytes (1-byte type, 3-byte length, body)
are appended to the handshake transcript if and only if the message
type is not Finished: `tls_session_send_handshake_msg` appends exactly
the message bytes for every non-Finished message and nothing for a
Finished one, and `tls_session_receive_handshake` leaves the
transcript unchanged for a received Finished while for every other
message it appends the message bytes (followed only by the bytes of
the handshake messages emitted in response), in
transmission/reception order. -/
theorem C1_transcript_iff_not_finished (c : Crypto) (pd : SensorPairingData)
    (s : TlsSession) (msg : Handshake) :
    (∀ s', tls_session_send_handshake_msg c s msg = .ok s' →
      s'.handshake_buffer = s.handshake_buffer ++
        (if msg.msg_type = 20 then [] else handshakeMsgBytes msg)) ∧
    (∀ s', tls_session_receive_handshake c pd s msg = .ok s' →
      (msg.msg_type = 20 → s'.handshake_buffer = s.handshake_buffer) ∧
      (msg.msg_type ≠ 20 →
        ∃ rest, s'.handshake_buffer = s.handshake_buffer ++ handshakeMsgBytes msg ++ rest)) := by
  constructor
  · intro s' h
    obtain ⟨sq, sb, cb, -, rfl⟩ := tls_session_send_handshake_msg_shape h
    rfl
  · intro s' h
    exact (tls_session_receive_handshake_effects h).2

/-- C1 witness: sending a concrete client Finished message leaves the
concrete transcript unchanged. -/
theorem C1_transcript_iff_not_finished_witness :
    (exceptOk (tls_session_send_handshake_msg cZero (tls_session_init cZero)
        ⟨20, List.replicate 12 0⟩) (tls_session_init cZero)).handshake_buffer =
      (tls_session_init cZero).handshake_buffer := by
  have hok : isOkB (tls_session_send_handshake_msg cZero (tls_session_init cZero)
      ⟨20, List.replicate 12 0⟩) = true := by decide
  have h := (C1_transcript_iff_not_finished cZero pdZero (tls_session_init cZero)
      ⟨20, List.replicate 12 0⟩).1 _ (exceptOk_eq (tls_session_init cZero) hok)
  simpa using h

/-- C2 (amended): receiving a server Finished in phase `SERVER_DONE`
(with the read cipher activated, i.e. `server_cs = client_cs`)
computes the expected verify data as the 12-byte TLS-PRF output keyed
with the master secret, label "server finished", seed SHA-256 of the
handshake transcript and PRF digest SHA-384, and compares it with the
12 received bytes: on a match the phase advances to `FINISHED`, on any
mismatch the session fails fatally through the `g_assert_not_reached`
abort (`assertFail`) — the decrypt_error alert of the spec exists only
in a TODO comment. -/
theorem C2_server_finished_verification (c : Crypto) (pd : SensorPairingData)
    (s : TlsSession) (msg : Handshake)
    (htype : msg.msg_type = 20)
    (hphase : s.handshake_phase = .SERVER_DONE)
    (hcs : s.server_cs = s.client_cs)
    (hlen : 12 ≤ msg.body.length)
    (halgo : s.hash_algo = "SHA384") :
    (msg.body.take 12 =
        c.prf s.master_secret "server finished" (c.sha256 s.handshake_buffer) 12 "SHA384" →
      tls_session_receive_handshake c pd s msg =
        .ok {s with handshake_phase := .FINISHED}) ∧
    (msg.body.take 12 ≠
        c.prf s.master_secret "server finished" (c.sha256 s.handshake_buffer) 12 "SHA384" →
      tls_session_receive_handshake c pd s msg = .error .assertFail) := by
  obtain ⟨mt, body⟩ := msg
  simp only at htype hlen ⊢
  subst htype
  unfold tls_session_receive_handshake
  simp only [show ((20:Nat) = 20) from rfl, show ¬((20:Nat) = 2) from by decide,
    show ¬((20:Nat) = 13) from by decide, show ¬((20:Nat) = 14) from by decide, ne_eq,
    not_true_eq_false, if_true, if_false, ite_true, ite_false]
  rw [if_neg (by simp [hphase]), if_neg (by simp [hcs]), if_neg (by omega), halgo]
  constructor
  · intro hmatch
    rw [if_neg (by simp [hmatch])]
  · intro hmis
    rw [if_pos (by simpa using (Ne.symm hmis))]

/-- C2 counterexample: on a concrete verify-data mismatch the code
fails through the assertion abort, not with a fatal decrypt_error
alert (`TlsError.alertError 51`) as the claim states. -/
theorem C2_counterexample :
    tls_session_receive_handshake cZero pdZero
      {tls_session_init cZero with handshake_phase := .SERVER_DONE}
      ⟨20, List.replicate 12 1⟩ = .error .assertFail ∧
    TlsError.assertFail ≠ TlsError.alertError 51 := by
  constructor
  · decide
  · decide

/-- C2 witness: a concrete matching server Finished advances the
concrete session to phase `FINISHED`. -/
theorem C2_server_finished_verification_witness :
    tls_session_receive_handshake cZero pdZero
      {tls_session_init cZero with handshake_phase := .SERVER_DONE}
      ⟨20, List.replicate 12 0⟩ =
      .ok {tls_session_init cZero with handshake_phase := .FINISHED} :=
  (C2_server_finished_verification cZero pdZero
    {tls_session_init cZero with handshake_phase := .SERVER_DONE}
    ⟨20, List.replicate 12 0⟩ rfl rfl rfl (by decide) rfl).1 (by decide)

/-- C3: every outbound record built by `tls_session_encrypt` — in the
null-cipher path and in the AES-256-GCM path alike — carries the
version bytes 0x03 0x03 (the big-endian encoding of 0x0303) as the
second and third byte of its 5-byte header; the little-endian write of
the palindromic constant 0x0303 produces the same wire bytes. -/
theorem C3_record_version_bytes (c : Crypto) (s : TlsSession) (type : Nat)
    (ptext : List Nat) (s' : TlsSession) (out : List Nat)
    (hv : s.version = 0x0303)
    (h : tls_session_encrypt c s type ptext = .ok (s', out)) :
    out.get? 1 = some 0x03 ∧ out.get? 2 = some 0x03 := by
  unfold tls_session_encrypt at h
  split at h
  · simp only [Except.ok.injEq, Prod.mk.injEq] at h
    obtain ⟨-, h2⟩ := h
    subst h2
    simp [u16le, hv]
  · split at h
    · simp only [Except.ok.injEq, Prod.mk.injEq] at h
      obtain ⟨-, h2⟩ := h
      subst h2
      simp [u16le, hv]
    · simp at h

/-- C3 witness: a concrete null-cipher record carries 0x03 0x03 at
header bytes 2 and 3. -/
theorem C3_record_version_bytes_witness :
    (exceptOk (tls_session_encrypt cZero (tls_session_init cZero) 23 [1, 2])
        (tls_session_init cZero, [])).2.get? 1 = some 0x03 ∧
    (exceptOk (tls_session_encrypt cZero (tls_session_init cZero) 23 [1, 2])
        (tls_session_init cZero, [])).2.get? 2 = some 0x03 := by
  have hok : isOkB (tls_session_encrypt cZero (tls_session_init cZero) 23 [1, 2]) = true := by
    decide
  exact C3_record_version_bytes cZero (tls_session_init cZero) 23 [1, 2] _ _ rfl
    (exceptOk_eq (tls_session_init cZero, []) hok)

/-- C4: under the active AES-256-GCM write cipher, the record payload
is explicit nonce (8 bytes) then ciphertext of exactly the plaintext's
length then tag (16 bytes); the header's length field holds
`8 + plaintext_length + 16`, the total wire length is
`plaintext_length + 5 + 8 + 16`, and `encr_seq_num` grows by exactly 1
for the record. -/
theorem C4_aead_record_layout (c : Crypto) (s : TlsSession) (type : Nat)
    (ptext : List Nat) (s' : TlsSession) (out : List Nat)
    (hcs : s.client_cs = 0xC02E)
    (hseq : s.encr_seq_num + 1 < 18446744073709551616)
    (h : tls_session_encrypt c s type ptext = .ok (s', out)) :
    ∃ nonce ct tag,
      nonce.length = 8 ∧ ct.length = ptext.length ∧ tag.length = 16 ∧
      out = [type % 256] ++ u16le s.version ++ u16be (8 + ptext.length + 16) ++
            nonce ++ ct ++ tag ∧
      out.length = ptext.length + 5 + 8 + 16 ∧
      s'.encr_seq_num = s.encr_seq_num + 1 := by
  unfold tls_session_encrypt at h
  split at h
  · rename_i h0
    rw [hcs] at h0
    exact absurd h0 (by decide)
  · simp only [Except.ok.injEq, Prod.mk.injEq] at h
    obtain ⟨h1, h2⟩ := h
    subst h1
    subst h2
    refine ⟨c.rand 8,
      (c.gcmEnc s.encr_key (s.encr_iv.take 4 ++ c.rand 8)
        (u64be s.encr_seq_num ++ [type % 256] ++ u16be s.version ++ u16be ptext.length) ptext).1,
      (c.gcmEnc s.encr_key (s.encr_iv.take 4 ++ c.rand 8)
        (u64be s.encr_seq_num ++ [type % 256] ++ u16be s.version ++ u16be ptext.length) ptext).2,
      c.rand_len 8, c.gcmEnc_ct_len _ _ _ _, c.gcmEnc_tag_len _ _ _ _, ?_, ?_, ?_⟩
    · rw [c.gcmEnc_ct_len]
    · simp only [List.length_append, List.length_cons, List.length_nil, u16le, u16be,
        c.rand_len, c.gcmEnc_ct_len, c.gcmEnc_tag_len]
      omega
    · simp only [Nat.mod_eq_of_lt hseq]

/-- C4 witness: a concrete one-byte plaintext yields a 30-byte wire
record and bumps the sequence number from 0 to 1. -/
theorem C4_aead_record_layout_witness :
    (exceptOk (tls_session_encrypt cZero
        {tls_session_init cZero with client_cs := 0xC02E} 23 [7])
        ({tls_session_init cZero with client_cs := 0xC02E}, [])).2.length =
      1 + 5 + 8 + 16 ∧
    (exceptOk (tls_session_encrypt cZero
        {tls_session_init cZero with client_cs := 0xC02E} 23 [7])
        ({tls_session_init cZero with client_cs := 0xC02E}, [])).1.encr_seq_num = 0 + 1 := by
  have hok : isOkB (tls_session_encrypt cZero
      {tls_session_init cZero with client_cs := 0xC02E} 23 [7]) = true := by decide
  obtain ⟨nonce, ct, tag, h1, h2, h3, h4, h5, h6⟩ :=
    C4_aead_record_layout cZero {tls_session_init cZero with client_cs := 0xC02E} 23 [7] _ _
      rfl (by decide)
      (exceptOk_eq ({tls_session_init cZero with client_cs := 0xC02E}, []) hok)
  exact ⟨h5, h6⟩

/-- C5: processing ServerHelloDone derives a 128-byte key block as
`PRF(master_secret, "key expansion", client_random || server_random)`
with digest SHA-384 (the master secret itself being the PRF of the
premaster over the same seed) and splits it as bytes 0-31 client write
key (`encr_key`), 32-63 server write key (`decr_key`), 64-67 client
write IV (`encr_iv`), 68-71 server write IV (`decr_iv`). -/
theorem C5_key_block_split (c : Crypto) (pd : SensorPairingData) (s : TlsSession)
    (msg : Handshake) (s' : TlsSession)
    (htype : msg.msg_type = 14)
    (halgo : s.hash_algo = "SHA384")
    (h : tls_session_receive_handshake c pd s msg = .ok s') :
    s'.master_secret =
      c.prf c.premaster "master secret" (s.client_random ++ s.server_random) 48 "SHA384" ∧
    (serverDoneKB c s).length = 128 ∧
    serverDoneKB c s =
      c.prf s'.master_secret "key expansion" (s.client_random ++ s.server_random) 128
        "SHA384" ∧
    s'.encr_key = (serverDoneKB c s).take 32 ∧
    s'.decr_key = ((serverDoneKB c s).drop 32).take 32 ∧
    s'.encr_iv = ((serverDoneKB c s).drop 64).take 4 ∧
    s'.decr_iv = ((serverDoneKB c s).drop 68).take 4 := by
  obtain ⟨-, h2, h3, h4, h5, h6, -, -, -, -⟩ :=
    tls_session_receive_handshake_serverdone_shape htype h
  refine ⟨?_, c.prf_len _ _ _ _ _, ?_, h3, h4, h5, h6⟩
  · rw [h2, serverDoneMS, halgo]
  · rw [h2, serverDoneKB, serverDoneMS, halgo]

/-- C5 witness: on a concrete session the derived key fields are the
zero-provider's PRF outputs split at 32/32/4/4. -/
theorem C5_key_block_split_witness :
    (exceptOk (tls_session_receive_handshake cZero pdZero
        {tls_session_init cZero with
         handshake_phase := .SUITE_HANDSHAKE,
         cert_request := 64,
         pending_cs := 0xC02E} ⟨14, []⟩)
        (tls_session_init cZero)).encr_key = List.replicate 32 0 ∧
    (exceptOk (tls_session_receive_handshake cZero pdZero
        {tls_session_init cZero with
         handshake_phase := .SUITE_HANDSHAKE,
         cert_request := 64,
         pending_cs := 0xC02E} ⟨14, []⟩)
        (tls_session_init cZero)).master_secret = List.replicate 48 0 := by
  have hok : isOkB (tls_session_receive_handshake cZero pdZero
      {tls_session_init cZero with
       handshake_phase := .SUITE_HANDSHAKE,
       cert_request := 64,
       pending_cs := 0xC02E} ⟨14, []⟩) = true := by decide
  obtain ⟨h1, -, -, h4, -, -, -⟩ :=
    C5_key_block_split cZero pdZero
      {tls_session_init cZero with
       handshake_phase := .SUITE_HANDSHAKE,
       cert_request := 64,
       pending_cs := 0xC02E} ⟨14, []⟩ _ rfl rfl
      (exceptOk_eq (tls_session_init cZero) hok)
  constructor
  · rw [h4]
    decide
  · rw [h1]
    decide

/-- C6 counterexample: the body the code builds differs from the
claim's byte sequence — the code emits a zero byte (an empty
compression-methods length) between the cipher-suite list and the
extensions. -/
theorem C6_counterexample :
    tls_session_client_hello_body (tls_session_init cZero) ≠
      clientHelloBodyClaimed 0x0303 (tls_session_init cZero).client_random := by
  decide

/-- C6 (amended): the emitted ClientHello body is exactly: version
(2 bytes big-endian), client_random (32 bytes), session-id length 7
and seven zero bytes, cipher-suites length 0x0002 and suite 0xC02E,
one zero byte (the compression-methods length, with no methods
advertised), then the two extensions supported_groups (type 0x000A,
2-byte data length 4, data 00 02 00 17) and ec_point_formats (type
0x000B, 2-byte data length 2, data 01 00) emitted inline with no
wrapping 2-byte length for the extensions block as a whole. -/
theorem C6_client_hello_layout (s : TlsSession)
    (hv : s.version = 0x0303)
    (hsid : s.session_id_size = 7) (hsidv : s.session_id = List.replicate 7 0)
    (hss : s.suites_size = 2) (hsv : s.suites = [0xC0, 0x2E]) :
    tls_session_client_hello_body s =
      [0x03, 0x03] ++ s.client_random ++
      [7, 0, 0, 0, 0, 0, 0, 0] ++ [0x00, 0x02, 0xC0, 0x2E] ++ [0x00] ++
      [0x00, 0x0A, 0x00, 0x04, 0x00, 0x02, 0x00, 0x17] ++
      [0x00, 0x0B, 0x00, 0x02, 0x01, 0x00] := by
  simp [tls_session_client_hello_body, hv, hsid, hsidv, hss, hsv, u16be]

/-- C6 witness: the amended layout evaluated on the concrete
initialised session. -/
theorem C6_client_hello_layout_witness :
    tls_session_client_hello_body (tls_session_init cZero) =
      [0x03, 0x03] ++ List.replicate 32 0 ++
      [7, 0, 0, 0, 0, 0, 0, 0] ++ [0x00, 0x02, 0xC0, 0x2E] ++ [0x00] ++
      [0x00, 0x0A, 0x00, 0x04, 0x00, 0x02, 0x00, 0x17] ++
      [0x00, 0x0B, 0x00, 0x02, 0x01, 0x00] := by
  have h := C6_client_hello_layout (tls_session_init cZero) rfl rfl rfl rfl rfl
  simpa using h

/-- C7 counterexample: feeding a ChangeCipherSpec record to the
freshly initialised session — whose pending cipher state is
`TLS_NULL_WITH_NULL_NULL` because no ServerHello has negotiated a
suite — succeeds with no error of any kind: the session simply copies
the null pending state into the read state. -/
theorem C7_counterexample :
    (tls_session_init cZero).pending_cs = 0 ∧
    tls_session_receive_ciphertext cZero pdZero (tls_session_init cZero)
      [20, 0x03, 0x03, 0, 1, 1] = .ok (tls_session_init cZero) := by
  constructor
  · decide
  · decide

/-- C7 (amended): a ChangeCipherSpec record received while no pending
cipher is installed (pending state `TLS_NULL_WITH_NULL_NULL`) raises
no error: the session activates the null pending state as the read
cipher (leaving the read path in null-cipher mode) and clears the
pending slot. -/
theorem C7_ccs_no_pending (c : Crypto) (pd : SensorPairingData) (s : TlsSession)
    (hp : s.pending_cs = 0) (hrc : s.recv_closed = false)
    (hsrv : s.server_cs = 0) (hv : s.version = 0x0303) :
    tls_session_receive_ciphertext c pd s [20, 0x03, 0x03, 0, 1, 1] =
      .ok {s with server_cs := 0, pending_cs := 0} := by
  unfold tls_session_receive_ciphertext
  rw [if_neg (by simp [hrc])]
  simp [tls_session_receive_ciphertext_loop, tls_session_receive, tls_session_receive_loop,
        tls_session_decrypt, hv, hp, hsrv]

/-- C7 witness: the amended behaviour on the concrete initialised
session. -/
theorem C7_ccs_no_pending_witness :
    tls_session_receive_ciphertext cZero pdZero (tls_session_init cZero)
      [20, 0x03, 0x03, 0, 1, 1] =
      .ok {tls_session_init cZero with server_cs := 0, pending_cs := 0} :=
  C7_ccs_no_pending cZero pdZero (tls_session_init cZero) rfl rfl rfl rfl

/-- Under the null write cipher, flushing the content buffer always
succeeds. -/
theorem tls_session_flush_content_buffer_ok (c : Crypto) {s : TlsSession}
    (hcc : s.client_cs = 0) :
    ∃ s1, tls_session_flush_content_buffer c s = .ok s1 := by
  unfold tls_session_flush_content_buffer
  split
  · simp only [tls_session_encrypt, hcc, if_true, ite_true]
    exact ⟨_, rfl⟩
  · exact ⟨s, rfl⟩

/-- Under the null write cipher, sending a record on an open session
always succeeds. -/
theorem tls_session_send_ok (c : Crypto) {s : TlsSession} {r : TlsRecord}
    (hsc : s.send_closed = false) (hcc : s.client_cs = 0) :
    ∃ s1, tls_session_send c s r = .ok s1 := by
  unfold tls_session_send
  rw [if_neg (by simp [hsc])]
  by_cases hcond : s.content_buffer_type ≠ 0 ∧ s.content_buffer_type ≠ r.type
  · rw [if_pos hcond]
    obtain ⟨s1, h1⟩ := tls_session_flush_content_buffer_ok c hcc
    rw [h1]
    exact ⟨_, rfl⟩
  · rw [if_neg hcond]
    exact ⟨_, rfl⟩

/-- Under the null write cipher, `tls_session_close` always
succeeds. -/
theorem tls_session_close_ok (c : Crypto) {s : TlsSession} (hcc : s.client_cs = 0) :
    ∃ s1, tls_session_close c s = .ok s1 := by
  unfold tls_session_close
  split
  · exact ⟨s, rfl⟩
  · rename_i hsc
    have hsc' : s.send_closed = false := by simpa using hsc
    obtain ⟨s1, h1⟩ := tls_session_send_ok c hsc' hcc
    unfold tls_session_send_alert
    rw [h1]
    exact ⟨_, rfl⟩

/-- C8 counterexample: a warning close_notify received while the local
send side is still open does not succeed — after auto-emitting its own
close_notify the code hits `g_assert(FALSE)` ("Remote closed session
unexpectedly"), so processing fails and `recv_closed` is never set. -/
theorem C8_counterexample :
    (tls_session_init cZero).send_closed = false ∧
    tls_session_receive_ciphertext cZero pdZero (tls_session_init cZero)
      [21, 0x03, 0x03, 0, 2, 1, 0] = .error .assertFail := by
  constructor
  · decide
  · decide

/-- C8 (amended): when a warning close_notify alert record arrives
(under the null read cipher), processing succeeds only if the local
send side is already closed, in which case `recv_closed` is set; if
the send side is still open, the session emits its own close_notify
and marks `send_closed` but then fails through `g_assert(FALSE)`
instead of succeeding. -/
theorem C8_close_notify (c : Crypto) (pd : SensorPairingData) (s : TlsSession)
    (hv : s.version = 0x0303) (hrc : s.recv_closed = false)
    (hsrv : s.server_cs = 0) (hcc : s.client_cs = 0) :
    (s.send_closed = true →
      tls_session_receive_ciphertext c pd s [21, 0x03, 0x03, 0, 2, 1, 0] =
        .ok {s with recv_closed := true}) ∧
    (s.send_closed = false →
      tls_session_receive_ciphertext c pd s [21, 0x03, 0x03, 0, 2, 1, 0] =
        .error .assertFail) := by
  constructor
  · intro hsc
    unfold tls_session_receive_ciphertext
    rw [if_neg (by simp [hrc])]
    simp [tls_session_receive_ciphertext_loop, tls_session_receive, tls_session_receive_loop,
          tls_session_decrypt, hv, hsrv, hsc]
  · intro hsc
    unfold tls_session_receive_ciphertext
    rw [if_neg (by simp [hrc])]
    obtain ⟨s1, h1⟩ := tls_session_close_ok c hcc
    simp [tls_session_receive_ciphertext_loop, tls_session_receive, tls_session_receive_loop,
          tls_session_decrypt, hv, hsrv, hsc, h1]

/-- C8 witness: the amended behaviour on a concrete session whose send
side is already closed. -/
theorem C8_close_notify_witness :
    tls_session_receive_ciphertext cZero pdZero
      {tls_session_init cZero with send_closed := true} [21, 0x03, 0x03, 0, 2, 1, 0] =
      .ok {tls_session_init cZero with send_closed := true, recv_closed := true} :=
  (C8_close_notify cZero pdZero {tls_session_init cZero with send_closed := true}
    rfl rfl rfl rfl).1 rfl

/-- C9: in every session state reachable through the facade
(including after a wrap of a zero-length payload, whose final flush
clears the pending type), a nonzero `content_buffer_type` implies a
nonempty content buffer; and each `tls_session_send` appends its
record's fragment with the buffer's type becoming exactly the record's
type, the previously buffered bytes surviving only when they were of
that same type (or none were pending) and being flushed out otherwise
— so every byte in the buffer was appended for a record of exactly the
pending type. -/
theorem C9_content_buffer_invariant (c : Crypto) (pd : SensorPairingData)
    (s : TlsSession) (h : Reach c pd s) :
    (s.content_buffer_type ≠ 0 → s.content_buffer ≠ []) ∧
    (∀ r s', tls_session_send c s r = .ok s' →
      s'.content_buffer_type = r.type ∧
      s'.content_buffer = sendKeep s r.type ++ r.fragment) := by
  refine ⟨fun hne hc => hne ((reach_contentTypeInv h).mp hc), ?_⟩
  intro r s' hs
  obtain ⟨-, sq, sb, rfl⟩ := tls_session_send_shape hs
  exact ⟨rfl, rfl⟩

/-- C9 witness: instantiated on the concrete state reached by
establishing the initialised session, whose content buffer holds the
ClientHello record (type 22). -/
theorem C9_content_buffer_invariant_witness :
    (exceptOk (tls_session_establish cZero (tls_session_init cZero))
        (tls_session_init cZero)).content_buffer_type ≠ 0 ∧
    (exceptOk (tls_session_establish cZero (tls_session_init cZero))
        (tls_session_init cZero)).content_buffer ≠ [] := by
  have hok : isOkB (tls_session_establish cZero (tls_session_init cZero)) = true := by
    decide
  have hr : Reach cZero pdZero
      (exceptOk (tls_session_establish cZero (tls_session_init cZero))
        (tls_session_init cZero)) :=
    Reach.establish Reach.init (exceptOk_eq (tls_session_init cZero) hok)
  have h22 : (exceptOk (tls_session_establish cZero (tls_session_init cZero))
      (tls_session_init cZero)).content_buffer_type ≠ 0 := by decide
  exact ⟨h22, (C9_content_buffer_invariant cZero pdZero _ hr).1 h22⟩

/-- C10: after a successful `tls_session_flush_send_buffer` on a
reachable session, the send buffer and the content buffer are both
empty with no pending type, `tls_session_has_data` is false, and an
immediately repeated flush succeeds, changes nothing and returns the
empty byte string. -/
theorem C10_flush_idempotent (c : Crypto) (pd : SensorPairingData)
    (s s' : TlsSession) (out : List Nat) (hr : Reach c pd s)
    (h : tls_session_flush_send_buffer c s = .ok (s', out)) :
    s'.send_buffer = [] ∧ s'.content_buffer = [] ∧ s'.content_buffer_type = 0 ∧
    tls_session_has_data s' = false ∧
    tls_session_flush_send_buffer c s' = .ok (s', []) := by
  obtain ⟨h1, h2, h3, h4⟩ := tls_session_flush_send_buffer_shape h
  have hcb : s'.content_buffer = [] := by
    by_cases hz : s.content_buffer_type = 0
    · obtain ⟨h5, -⟩ := h4 hz
      subst h5
      exact (reach_contentTypeInv hr).mpr hz
    · exact h3 hz
  refine ⟨h1, hcb, h2, ?_, ?_⟩
  · simp [tls_session_has_data, h1, hcb]
  · exact tls_session_flush_send_buffer_fix h2 h1

/-- C10 witness: flushing the freshly initialised session returns the
empty string and leaves a state on which all the conclusions hold
concretely. -/
theorem C10_flush_idempotent_witness :
    tls_session_has_data (tls_session_init cZero) = false ∧
    tls_session_flush_send_buffer cZero (tls_session_init cZero) =
      .ok (tls_session_init cZero, []) := by
  obtain ⟨-, -, -, h4, h5⟩ :=
    C10_flush_idempotent cZero pdZero (tls_session_init cZero) (tls_session_init cZero) []
      Reach.init (by decide)
  exact ⟨h4, h5⟩
